import Mathlib

/-!
Shallow embedding of the admission-control subsystem of
`src/app/core/limiter.py` (class `AdvancedRateLimiter`, the module-level
key function `get_rate_limit_key`, and the `rate_limit` decorator).

Modelling choices, faithful to the source:
* The Redis sorted set behind one bucket key `rl:{key}:{window_seconds}`
  is a list of (member, score) pairs with distinct members.  The Lua
  script builds the member string `now .. ':' .. cost`, which is in
  bijection with the pair `(now, cost)`, so a member is modelled as
  `Int × Int` and a score as `Int` (Python/Lua integers are unbounded
  here; `int(time.time())` and costs are plain integers).
* `ZREMRANGEBYSCORE key 0 (now - window)` removes exactly the entries
  whose score s satisfies `0 ≤ s ∧ s ≤ now - window`.
* `ZCARD` is the number of members; `ZADD key now member` updates the
  score of an existing member in place, otherwise appends the member.
* `EXPIRE key window` is recorded as an absolute expiry `now + window`
  in the `ttl` field of the state.
* The two `int(time.time())` calls inside one invocation of
  `check_rate_limit` are modelled as the same instant `now`.
* A failing store call (`redis_client.eval` / `redis_client.get`
  raising) is modelled with `Except String`: the exception propagates,
  carried by `Except.error`.
-/

/-- One bucket of the Redis store: the sorted-set entries
(member `(timestamp, cost)`, score `timestamp`) plus the key's TTL,
recorded as an absolute expiry instant when set. -/
structure WindowState where
  events : List ((Int × Int) × Int)
  ttl : Option Int
deriving DecidableEq

/-- The `metadata` dictionary built by `AdvancedRateLimiter.check_rate_limit`. -/
structure Metadata where
  limit : Int
  remaining : Int
  reset : Int
  retryAfter : Option Int
  tier : String
  cost : Int
deriving DecidableEq

/-- `ZREMRANGEBYSCORE key 0 (now - window)`: drop every entry whose score
lies in `[0, now - window]`; keep an entry iff its score is negative or
exceeds `now - window`. -/
def prune (events : List ((Int × Int) × Int)) (window now : Int) :
    List ((Int × Int) × Int) :=
  events.filter (fun e => decide (e.2 < 0 ∨ now - window < e.2))

/-- `ZADD key score member`: update the score of an existing member,
otherwise append the member with its score. -/
def zadd (events : List ((Int × Int) × Int)) (member : Int × Int)
    (score : Int) : List ((Int × Int) × Int) :=
  if events.any (fun e => e.1 = member) then
    events.map (fun e => if e.1 = member then (member, score) else e)
  else
    events ++ [(member, score)]

/-- The tier table of `check_rate_limit`:
`tier_limits.get(tier, tier_limits["free"])["requests"]`. -/
def tierLimit (tier : String) : Int :=
  if tier = "free" then 60
  else if tier = "pro" then 600
  else if tier = "enterprise" then 6000
  else 60

/-- The Lua script executed by `redis_client.eval`: clean old entries,
count the remaining members with `ZCARD`, compare `current + cost`
against `max_requests`, and on admission `ZADD` the member
`now .. ':' .. cost` and `EXPIRE` the key.  Returns the Lua triple
`{flag, current-or-used, max_requests}` together with the new bucket
state. -/
def evalScript (st : WindowState) (window mreq cost now : Int) :
    (Int × Int × Int) × WindowState :=
  let cleaned := prune st.events window now
  let current : Int := cleaned.length
  if mreq < current + cost then
    ((0, current, mreq), ⟨cleaned, st.ttl⟩)
  else
    ((1, current + cost, mreq), ⟨zadd cleaned (now, cost) now, some (now + window)⟩)

/-- Decoding of the script result in `check_rate_limit`:
`allowed = bool(result[0])`, `current_requests = result[1]`,
`limit = result[2]`, then the metadata dictionary
(`remaining = max(0, limit - current_requests)`,
`reset = int(time.time()) + window_seconds`,
`retry_after = window_seconds if not allowed else None`). -/
def buildOutput (res : (Int × Int × Int) × WindowState) (cost window : Int)
    (tier : String) (now : Int) : (Bool × Metadata) × WindowState :=
  let allowed : Bool := decide (res.1.1 ≠ 0)
  ((allowed,
    ⟨res.1.2.2,
     max 0 (res.1.2.2 - res.1.2.1),
     now + window,
     if allowed then none else some window,
     tier, cost⟩),
   res.2)

/-- `AdvancedRateLimiter.check_rate_limit` on the success path of the
store call: the `max_requests` argument is overwritten with the tier
table entry before the script runs, the script result is decoded and
the metadata dictionary is built. -/
def check_rate_limit (st : WindowState) (cost window maxRequests : Int)
    (tier : String) (now : Int) : (Bool × Metadata) × WindowState :=
  buildOutput (evalScript st window (tierLimit tier) cost now) cost window tier now

/-- `check_rate_limit` including the store round trip: when the `eval`
call raises (`storeErr = some e`), the exception propagates out of
`check_rate_limit`, which has no handler. -/
def check_rate_limit_run (storeErr : Option String) (st : WindowState)
    (cost window maxRequests : Int) (tier : String) (now : Int) :
    Except String ((Bool × Metadata) × WindowState) :=
  match storeErr with
  | some e => Except.error e
  | none => Except.ok (check_rate_limit st cost window maxRequests tier now)

/-- `AdvancedRateLimiter.get_user_tier` on the success path:
`tier = await redis_client.get(...)`, then `tier or "free"` — both a
missing value and an empty string are falsy and yield `"free"`. -/
def get_user_tier (stored : Option String) : String :=
  match stored with
  | none => "free"
  | some t => if t = "" then "free" else t

/-- `get_user_tier` including the store round trip: a raising `get`
propagates out of `get_user_tier`, which has no handler. -/
def get_user_tier_run (storeErr : Option String) (stored : Option String) :
    Except String String :=
  match storeErr with
  | some e => Except.error e
  | none => Except.ok (get_user_tier stored)

/-- `slowapi.util.get_remote_address`: `request.client.host` when the
client and a non-empty host are present, else `"127.0.0.1"`. -/
def get_remote_address (client : Option String) : String :=
  match client with
  | none => "127.0.0.1"
  | some h => if h = "" then "127.0.0.1" else h

/-- The module-level key function `get_rate_limit_key`: `user:{id}` for
a truthy `request.state.user`, otherwise the bare remote address. -/
def get_rate_limit_key (user : Option String) (client : Option String) :
    String :=
  match user with
  | some uid => "user:" ++ uid
  | none => get_remote_address client

/-- The value returned by the `rate_limit` decorator's wrapper: a 429
response carrying the metadata, or the downstream handler's response. -/
inductive Outcome where
  | rejected (md : Metadata)
  | forwarded
deriving DecidableEq

/-- The counter step of the wrapper: call `check_rate_limit` through the
store (the exception of a failing store call propagates), then either
short-circuit with a 429 or forward to the wrapped handler. -/
def run_counter (counterStoreErr : Option String) (st : WindowState)
    (cost window requests : Int) (tier : String) (now : Int) :
    Except String (Outcome × WindowState) :=
  match counterStoreErr with
  | some e => Except.error e
  | none =>
    let r := check_rate_limit st cost window requests tier now
    if r.1.1 then Except.ok (Outcome.forwarded, r.2)
    else Except.ok (Outcome.rejected r.1.2, r.2)

/-- The `rate_limit` decorator's wrapper for one request whose bucket
state is `st`: resolve the tier (only when a truthy user is present; a
raising tier lookup propagates), then run the counter. -/
def rate_limit_wrapper (user client : Option String)
    (tierStoreErr storedTier counterStoreErr : Option String)
    (st : WindowState) (requests window cost now : Int) :
    Except String (Outcome × WindowState) :=
  let _key := get_rate_limit_key user client
  match user with
  | some _uid =>
    match get_user_tier_run tierStoreErr storedTier with
    | Except.error e => Except.error e
    | Except.ok tier => run_counter counterStoreErr st cost window requests tier now
  | none => run_counter counterStoreErr st cost window requests "free" now

/-- Run a sequence of `(now, cost)` requests against one bucket through
`check_rate_limit`, collecting the admission decisions. -/
def simulate (st : WindowState) (reqs : List (Int × Int))
    (window mreq : Int) (tier : String) : List Bool × WindowState :=
  match reqs with
  | [] => ([], st)
  | (now, cost) :: rest =>
    let r := check_rate_limit st cost window mreq tier now
    let tail := simulate r.2 rest window mreq tier
    (r.1.1 :: tail.1, tail.2)

/-- Sum of the recorded costs (the second component of each member) of a
bucket's entries. -/
def weightSum (events : List ((Int × Int) × Int)) : Int :=
  (events.map (fun e => e.1.2)).sum

/-- C1: the code does not maintain the weighted-sum invariant.  Starting
from an empty bucket, seven requests of cost 10 at seconds 0..6 on tier
`free` (limit 60, window 60) are all admitted, yet after the seventh
admission the sum of the costs of the recorded, un-expired events is
70 > 60: the script bounds `ZCARD` (the event count), not the sum of
weights. -/
theorem counted_window_breaks_weight_invariant :
    (simulate ⟨[], none⟩ [(0, 10), (1, 10), (2, 10), (3, 10), (4, 10), (5, 10), (6, 10)]
        60 60 "free").1
      = [true, true, true, true, true, true, true]
    ∧ weightSum (simulate ⟨[], none⟩
        [(0, 10), (1, 10), (2, 10), (3, 10), (4, 10), (5, 10), (6, 10)]
        60 60 "free").2.events = 70
    ∧ tierLimit "free" < 70 := by decide

/-- C2: `current` is computed as the event count (`ZCARD`), not the sum
of the remaining weights.  With limit 60 and seven cost-10 requests at
seconds 0..6, the seventh request — which a weighted counter would
reject at `current = 60` — is admitted (its call sees `current = 6`),
and seven events are stored. -/
theorem cost_ten_run_admits_seventh :
    (simulate ⟨[], none⟩ [(0, 10), (1, 10), (2, 10), (3, 10), (4, 10), (5, 10), (6, 10)]
        60 60 "free").1
      = [true, true, true, true, true, true, true]
    ∧ (simulate ⟨[], none⟩
        [(0, 10), (1, 10), (2, 10), (3, 10), (4, 10), (5, 10), (6, 10)]
        60 60 "free").2.events.length = 7
    ∧ (check_rate_limit ⟨[((0, 10), 0), ((1, 10), 1), ((2, 10), 2), ((3, 10), 3),
          ((4, 10), 4), ((5, 10), 5)], some 65⟩ 10 60 60 "free" 6).1.1 = true := by
  decide

/-- C3: events recorded at the same timestamp with the same cost are
collapsed, not retained.  Starting empty on tier `free`, 61 requests of
cost 1 all at timestamp 0 are all admitted — including the 61st, which
the spec's scenario says is rejected — because `ZADD` keeps rewriting
the single member `0:1`, so the bucket never holds more than one
event. -/
theorem same_timestamp_events_collapse :
    (simulate ⟨[], none⟩ (List.replicate 61 ((0 : Int), (1 : Int))) 60 60 "free").1
      = List.replicate 61 true
    ∧ (simulate ⟨[], none⟩ (List.replicate 61 ((0 : Int), (1 : Int))) 60 60 "free").2.events
      = [((0, 1), 0)] := by decide

theorem evalScript_reject (st : WindowState) (window mreq cost now : Int)
    (h : mreq < ((prune st.events window now).length : Int) + cost) :
    evalScript st window mreq cost now
      = ((0, ((prune st.events window now).length : Int), mreq),
         ⟨prune st.events window now, st.ttl⟩) := by
  simp only [evalScript, if_pos h]

theorem evalScript_accept (st : WindowState) (window mreq cost now : Int)
    (h : ¬ mreq < ((prune st.events window now).length : Int) + cost) :
    evalScript st window mreq cost now
      = ((1, ((prune st.events window now).length : Int) + cost, mreq),
         ⟨zadd (prune st.events window now) (now, cost) now, some (now + window)⟩) := by
  simp only [evalScript, if_neg h]

theorem prune_prune (l : List ((Int × Int) × Int)) (window now now2 : Int)
    (h : now ≤ now2) :
    prune (prune l window now) window now2 = prune l window now2 := by
  induction l with
  | nil => rfl
  | cons a t ih =>
    by_cases h1 : (a.2 < 0 ∨ now - window < a.2)
    · by_cases h2 : (a.2 < 0 ∨ now2 - window < a.2)
      · simpa [prune, List.filter_cons, h1, h2] using ih
      · simpa [prune, List.filter_cons, h1, h2] using ih
    · have h2 : ¬ (a.2 < 0 ∨ now2 - window < a.2) := by
        push_neg at h1 ⊢
        exact ⟨h1.1, le_trans h1.2 (by omega)⟩
      simpa [prune, List.filter_cons, h1, h2] using ih

theorem evalScript_after_prune (st : WindowState)
    (window now now2 mreq2 cost2 : Int) (hle : now ≤ now2) :
    evalScript ⟨prune st.events window now, st.ttl⟩ window mreq2 cost2 now2
      = evalScript st window mreq2 cost2 now2 := by
  show evalScript ⟨prune st.events window now, st.ttl⟩ window mreq2 cost2 now2
      = evalScript st window mreq2 cost2 now2
  simp only [evalScript]
  rw [prune_prune st.events window now now2 hle]

/-- C4: a rejected request is a pure read of the window.  When
`check_rate_limit` returns `allowed = false`, the TTL is untouched, the
stored events are exactly the still-live (un-expired) events that were
already there — no event is inserted — and any later call on the same
bucket (same key and window, at a time `now2 ≥ now`) returns exactly
what it would have returned had the rejected call never happened. -/
theorem check_rate_limit_reject_is_pure_read (st : WindowState)
    (cost window mreq : Int) (tier : String) (now : Int)
    (cost2 mreq2 : Int) (tier2 : String) (now2 : Int)
    (hrej : (check_rate_limit st cost window mreq tier now).1.1 = false)
    (hle : now ≤ now2) :
    (check_rate_limit st cost window mreq tier now).2.ttl = st.ttl
    ∧ (check_rate_limit st cost window mreq tier now).2.events
        = prune st.events window now
    ∧ (∀ e, e ∈ (check_rate_limit st cost window mreq tier now).2.events →
        e ∈ st.events)
    ∧ check_rate_limit (check_rate_limit st cost window mreq tier now).2
        cost2 window mreq2 tier2 now2
      = check_rate_limit st cost2 window mreq2 tier2 now2 := by
  have hcond : tierLimit tier < ((prune st.events window now).length : Int) + cost := by
    by_contra hc
    rw [check_rate_limit, evalScript_accept st window (tierLimit tier) cost now hc] at hrej
    simp [buildOutput] at hrej
  rw [check_rate_limit, evalScript_reject st window (tierLimit tier) cost now hcond]
  refine ⟨rfl, rfl, ?_, ?_⟩
  · intro e he
    exact List.mem_of_mem_filter he
  · show check_rate_limit ⟨prune st.events window now, st.ttl⟩ cost2 window mreq2 tier2 now2
      = check_rate_limit st cost2 window mreq2 tier2 now2
    rw [check_rate_limit, check_rate_limit,
        evalScript_after_prune st window now now2 (tierLimit tier2) cost2 hle]

/-- Witness for C4 at a concrete rejection: on an empty `free` bucket a
request of cost 100 is rejected at time 5, and a follow-up call of cost
1 at time 7 is unaffected by it. -/
theorem check_rate_limit_reject_is_pure_read_witness :
    (check_rate_limit ⟨[], none⟩ 100 60 60 "free" 5).2.ttl = (none : Option Int)
    ∧ check_rate_limit (check_rate_limit ⟨[], none⟩ 100 60 60 "free" 5).2
        1 60 60 "free" 7
      = check_rate_limit ⟨[], none⟩ 1 60 60 "free" 7 :=
  ⟨(check_rate_limit_reject_is_pure_read ⟨[], none⟩ 100 60 60 "free" 5 1 60 "free" 7
      (by decide) (by decide)).1,
   (check_rate_limit_reject_is_pure_read ⟨[], none⟩ 100 60 60 "free" 5 1 60 "free" 7
      (by decide) (by decide)).2.2.2⟩

/-- C5 counterexample: a call with `cost = 0` is not rejected with a
configuration error — it is a normal admission that records a
zero-cost event; negative cost and negative window are likewise
processed as ordinary admission decisions. -/
theorem cost_zero_is_normally_admitted :
    (check_rate_limit ⟨[], none⟩ 0 60 60 "free" 100).1.1 = true
    ∧ (check_rate_limit ⟨[], none⟩ 0 60 60 "free" 100).2.events = [((100, 0), 100)]
    ∧ (check_rate_limit ⟨[], none⟩ (-5) 60 60 "free" 100).1.1 = true
    ∧ (check_rate_limit ⟨[], none⟩ 1 (-60) 60 "free" 100).1.1 = true := by decide

/-- C5 (amended): `check_rate_limit` performs no validation of `cost`.
A call with `cost = 0` is evaluated by the ordinary admission rule — it
is admitted exactly when the count of surviving events is within the
tier limit — and on admission it records the zero-cost event
`(now, 0)`; no configuration error is raised. -/
theorem check_rate_limit_cost_zero_not_validated (st : WindowState)
    (window mreq : Int) (tier : String) (now : Int) :
    ((check_rate_limit st 0 window mreq tier now).1.1
       = decide (((prune st.events window now).length : Int) ≤ tierLimit tier))
    ∧ ((check_rate_limit st 0 window mreq tier now).1.1 = true →
       (check_rate_limit st 0 window mreq tier now).2.events
         = zadd (prune st.events window now) (now, 0) now) := by
  by_cases hc : tierLimit tier < ((prune st.events window now).length : Int) + 0
  · have hng : ¬ (((prune st.events window now).length : Int) ≤ tierLimit tier) := by omega
    constructor
    · rw [check_rate_limit, evalScript_reject st window (tierLimit tier) 0 now hc]
      simp [buildOutput, hng]
    · intro h
      rw [check_rate_limit, evalScript_reject st window (tierLimit tier) 0 now hc] at h
      simp [buildOutput] at h
  · have hle : (((prune st.events window now).length : Int) ≤ tierLimit tier) := by omega
    constructor
    · rw [check_rate_limit, evalScript_accept st window (tierLimit tier) 0 now hc]
      simp [buildOutput, hle]
    · intro _
      rw [check_rate_limit, evalScript_accept st window (tierLimit tier) 0 now hc]
      simp [buildOutput]

/-- Witness for C5 (amended) on an empty bucket at time 100. -/
theorem check_rate_limit_cost_zero_not_validated_witness :
    (check_rate_limit ⟨[], none⟩ 0 60 60 "free" 100).1.1
      = decide (((prune (⟨[], none⟩ : WindowState).events 60 100).length : Int)
          ≤ tierLimit "free")
    ∧ (check_rate_limit ⟨[], none⟩ 0 60 60 "free" 100).2.events
      = zadd (prune (⟨[], none⟩ : WindowState).events 60 100) (100, 0) 100 :=
  ⟨(check_rate_limit_cost_zero_not_validated ⟨[], none⟩ 60 60 "free" 100).1,
   (check_rate_limit_cost_zero_not_validated ⟨[], none⟩ 60 60 "free" 100).2 (by decide)⟩

/-- C6: a request whose cost alone exceeds the effective (tier-table)
limit is always rejected, whatever the bucket state — in particular on
a bucket with no prior events. -/
theorem check_rate_limit_cost_over_limit_rejects (st : WindowState)
    (cost window mreq : Int) (tier : String) (now : Int)
    (h : tierLimit tier < cost) :
    (check_rate_limit st cost window mreq tier now).1.1 = false := by
  have hc : tierLimit tier < ((prune st.events window now).length : Int) + cost := by
    have hnn : (0 : Int) ≤ ((prune st.events window now).length : Int) :=
      Int.natCast_nonneg _
    omega
  rw [check_rate_limit, evalScript_reject st window (tierLimit tier) cost now hc]
  simp [buildOutput]

/-- Witness for C6: cost 100 on an empty `free` bucket is rejected. -/
theorem check_rate_limit_cost_over_limit_rejects_witness :
    tierLimit "free" < 100
    ∧ (check_rate_limit ⟨[], none⟩ 100 60 60 "free" 0).1.1 = false :=
  ⟨by decide,
   check_rate_limit_cost_over_limit_rejects ⟨[], none⟩ 100 60 60 "free" 0 (by decide)⟩

/-- C7 counterexample: with the counter store failing, the request is
not denied — `check_rate_limit` surfaces the store exception itself
(the result is an error, not a `(false, metadata)` decision). -/
theorem store_error_propagates_not_denies :
    check_rate_limit_run (some "ConnectionError") ⟨[], none⟩ 1 60 60 "free" 0
      = Except.error "ConnectionError"
    ∧ (check_rate_limit_run (some "ConnectionError") ⟨[], none⟩ 1 60 60 "free" 0).isOk
      = false := ⟨rfl, rfl⟩

/-- C7 (amended): when the atomic counter-store call fails, the failure
propagates unchanged out of `check_rate_limit` and out of the whole
`rate_limit` wrapper: the affected request is neither admitted nor
denied by the limiter, and no distinct CounterStoreUnavailable
classification exists. -/
theorem counter_store_failure_propagates (e : String)
    (user client storedTier : Option String) (st : WindowState)
    (requests window cost now : Int) :
    rate_limit_wrapper user client none storedTier (some e) st requests window cost now
      = Except.error e
    ∧ check_rate_limit_run (some e) st cost window requests "free" now
      = Except.error e := by
  cases user <;>
    simp [rate_limit_wrapper, get_user_tier_run, run_counter, check_rate_limit_run]

/-- C8 counterexample: when the tier store fails, `get_user_tier` does
not return the default tier — the exception propagates, and it makes
the whole admission evaluation of an authenticated request fail. -/
theorem tier_store_error_fails_request :
    get_user_tier_run (some "ConnectionError") none = Except.error "ConnectionError"
    ∧ rate_limit_wrapper (some "42") none (some "ConnectionError") none none
        ⟨[], none⟩ 60 60 1 0
      = Except.error "ConnectionError" := ⟨rfl, rfl⟩

/-- C8 (amended): `get_user_tier` defaults to `"free"` only on a cache
miss (a missing or empty stored value); a stored non-empty tier is
returned as-is, and a tier-store error propagates out of
`get_user_tier` and fails the request's evaluation in the wrapper. -/
theorem get_user_tier_miss_defaults_error_propagates (e uid : String)
    (stored client : Option String) (st : WindowState)
    (requests window cost now : Int) :
    get_user_tier none = "free"
    ∧ get_user_tier (some "") = "free"
    ∧ (∀ t : String, t ≠ "" → get_user_tier (some t) = t)
    ∧ get_user_tier_run (some e) stored = Except.error e
    ∧ rate_limit_wrapper (some uid) client (some e) stored none st
        requests window cost now = Except.error e := by
  refine ⟨rfl, rfl, ?_, rfl, rfl⟩
  intro t ht
  simp [get_user_tier, ht]

/-- Witness for C8 (amended): a stored tier `"pro"` is returned as-is,
and a failing lookup yields the error. -/
theorem get_user_tier_miss_defaults_error_propagates_witness :
    get_user_tier (some "pro") = "pro"
    ∧ get_user_tier_run (some "down") none = Except.error "down" :=
  ⟨(get_user_tier_miss_defaults_error_propagates "down" "42" none none
      ⟨[], none⟩ 60 60 1 0).2.2.1 "pro" (by decide),
   (get_user_tier_miss_defaults_error_propagates "down" "42" none none
      ⟨[], none⟩ 60 60 1 0).2.2.2.1⟩

/-- C9 counterexample: for an unauthenticated request the key is the
bare client address, not `ip:{address}` — there is no `ip:`
namespace. -/
theorem key_for_ip_has_no_namespace :
    get_rate_limit_key none (some "203.0.113.5") = "203.0.113.5"
    ∧ get_rate_limit_key none (some "203.0.113.5") ≠ "ip:" ++ "203.0.113.5" := by
  decide

/-- C9 (amended): the key resolver is deterministic, never fails, and
returns a non-empty key: `user:{id}` when an authenticated principal is
present, otherwise the bare remote address (`request.client.host`, or
`127.0.0.1` when the client is absent or its host empty) with no `ip:`
namespace added. -/
theorem get_rate_limit_key_shape (user client : Option String) :
    (∀ uid, user = some uid → get_rate_limit_key user client = "user:" ++ uid)
    ∧ (user = none → get_rate_limit_key user client = get_remote_address client)
    ∧ get_rate_limit_key user client ≠ "" := by
  refine ⟨?_, ?_, ?_⟩
  · intro uid h
    subst h
    rfl
  · intro h
    subst h
    rfl
  · cases user with
    | some uid =>
      show ("user:" ++ uid) ≠ ""
      intro h
      have hlen := congrArg String.length h
      rw [String.length_append, String.length_empty] at hlen
      have h5 : ("user:" : String).length = 5 := by decide
      omega
    | none =>
      show get_remote_address client ≠ ""
      cases client with
      | none => decide
      | some hs =>
        simp only [get_remote_address]
        by_cases hh : hs = ""
        · rw [if_pos hh]
          decide
        · rw [if_neg hh]
          exact hh

/-- Witness for C9 (amended): the two key shapes at concrete inputs. -/
theorem get_rate_limit_key_shape_witness :
    get_rate_limit_key (some "42") none = "user:" ++ "42"
    ∧ get_rate_limit_key none (some "10.0.0.9") ≠ "" :=
  ⟨(get_rate_limit_key_shape (some "42") none).1 "42" rfl,
   (get_rate_limit_key_shape none (some "10.0.0.9")).2.2⟩

/-- C10: the `max_requests` argument of `check_rate_limit` is ignored —
it is overwritten from the built-in tier table before the script runs —
so two calls differing only in `max_requests` coincide, the reported
limit is always the tier-table value, and the table maps `free` to 60,
`pro` to 600, `enterprise` to 6000 and anything else to 60. -/
theorem check_rate_limit_ignores_max_requests (st : WindowState)
    (cost window m1 m2 : Int) (tier : String) (now : Int) :
    check_rate_limit st cost window m1 tier now
      = check_rate_limit st cost window m2 tier now
    ∧ (check_rate_limit st cost window m1 tier now).1.2.limit = tierLimit tier
    ∧ tierLimit "free" = 60 ∧ tierLimit "pro" = 600 ∧ tierLimit "enterprise" = 6000
    ∧ (tier ≠ "free" → tier ≠ "pro" → tier ≠ "enterprise" → tierLimit tier = 60) := by
  refine ⟨rfl, ?_, by decide, by decide, by decide, ?_⟩
  · rw [check_rate_limit]
    by_cases hc : tierLimit tier < ((prune st.events window now).length : Int) + cost
    · rw [evalScript_reject st window (tierLimit tier) cost now hc]
      simp [buildOutput]
    · rw [evalScript_accept st window (tierLimit tier) cost now hc]
      simp [buildOutput]
  · intro h1 h2 h3
    simp [tierLimit, h1, h2, h3]

/-- Witness for C10: with an out-of-table tier the limit defaults to 60
and the `max_requests` argument (10 vs 999) makes no difference. -/
theorem check_rate_limit_ignores_max_requests_witness :
    check_rate_limit ⟨[], none⟩ 1 60 10 "gold" 0
      = check_rate_limit ⟨[], none⟩ 1 60 999 "gold" 0
    ∧ tierLimit "gold" = 60 :=
  ⟨(check_rate_limit_ignores_max_requests ⟨[], none⟩ 1 60 10 999 "gold" 0).1,
   (check_rate_limit_ignores_max_requests ⟨[], none⟩ 1 60 10 999 "gold" 0).2.2.2.2.2
     (by decide) (by decide) (by decide)⟩
